import Mathlib

/-!
Shallow embedding of the weather-and-sentiment aggregation service found in
`backend/app.py`, `backend/sentiment_analysis.py` and their collaborators.

External effects are made explicit parameters:
* the upstream weather provider is a function from (lowercased city, language
  code) to an HTTP response;
* the TextBlob sentence decomposition of a feedback text is carried alongside
  the raw string (TextBlob is an external, deterministic library: every text
  determines one list of per-sentence polarity values);
* the outcome of each persistence attempt (Supabase insert, SQLite append) is
  a parameter ranging over the exception kinds the repository's own
  persistence code raises (`ValueError`, `RuntimeError`), which are exactly
  the kinds the handler catches.

Python floats are modelled as rationals; the claims under study are about the
algebraic aggregation (sums, means), which the embedding reproduces exactly.
-/

/-- Python `str.lower()`: lowercases the string character by character. -/
def pyLower (s : String) : String := ⟨s.data.map Char.toLower⟩

/-- A scalar value held in one of the Python dicts the service builds:
either a string or a number. -/
inductive Val
  | s (v : String)
  | q (v : Rat)
  deriving DecidableEq

/-- A Python dict with string keys, as a key-value list in insertion order. -/
abbrev PyDict := List (String × Val)

/-- The in-memory aggregation store `TEMP_WEATHER_STORE` of `app.py`:
a mapping from lowercased city name to the stored weather dict.  Writes cons
a new binding; reads take the most recent binding, which matches the
observable behaviour of Python dict assignment and `dict.get`. -/
structure Store where
  entries : List (String × PyDict)
  deriving DecidableEq

/-- `TEMP_WEATHER_STORE.get(city)`: the most recent binding for the key,
`none` when absent. -/
def Store.get (m : Store) (k : String) : Option PyDict :=
  (m.entries.find? (fun p => p.1 == k)).map (fun p => p.2)

/-- `TEMP_WEATHER_STORE[city] = record`: bind the key to the new record,
shadowing (overwriting) any previous binding. -/
def Store.put (m : Store) (k : String) (v : PyDict) : Store :=
  ⟨(k, v) :: m.entries⟩

/-- A store with no entries (the state at process start). -/
def Store.empty : Store := ⟨[]⟩

/-- A FastAPI `HTTPException`: status code and detail message. -/
structure HTTPError where
  status : Nat
  detail : String
  deriving DecidableEq

/-- The fields of the upstream OpenWeatherMap JSON payload that
`get_weather` reads.  A `none` field models a payload from which the
corresponding access (`name`, `main.temp`, `weather[0].description`,
`weather[0].icon`) fails. -/
structure OwmPayload where
  name : Option String
  mainTemp : Option Rat
  description : Option String
  icon : Option String
  deriving DecidableEq

/-- One upstream HTTP response: status code, parsed JSON payload, and the
`message` field used in error details. -/
structure UpstreamResp where
  status : Nat
  payload : OwmPayload
  message : String
  deriving DecidableEq

/-- The fetch loop of `get_weather` (`for lg in cfg.LGS`): query the
provider once per configured language, in order, failing at the first
non-200 response with that response's status propagated. -/
def fetchAll (up : String → UpstreamResp) : List String → Except HTTPError (List (String × OwmPayload))
  | [] => .ok []
  | lg :: rest =>
    if (up lg).status ≠ 200 then
      .error ⟨(up lg).status, "Error fetching weather data: " ++ (up lg).message⟩
    else
      match fetchAll up rest with
      | .error e => .error e
      | .ok tail => .ok ((lg, (up lg).payload) :: tail)

/-- `weather_data[lg]`: look up the payload fetched for a language code. -/
def lookupLg (wd : List (String × OwmPayload)) (lg : String) : Option OwmPayload :=
  (wd.find? (fun p => p.1 == lg)).map (fun p => p.2)

/-- The JSON body returned by the `/request` endpoint on success. -/
structure WeatherResp where
  name : String
  temp : Rat
  description_en : String
  description_de : String
  icon : String
  deriving DecidableEq

/-- The field-extraction block of `get_weather` (`try: ... except KeyError`):
name, temperature and icon from the English payload, the localized
description from each payload; any missing field yields the fixed 500
response. -/
def extractFields (wd : List (String × OwmPayload)) : Except HTTPError WeatherResp :=
  match lookupLg wd "en", lookupLg wd "de" with
  | some en, some de =>
    match en.name, en.mainTemp, en.description, de.description, en.icon with
    | some n, some temp, some den, some dde, some icon =>
      .ok ⟨n, temp, den, dde, icon⟩
    | _, _, _, _, _ => .error ⟨500, "Error processing weather data structure"⟩
  | _, _ => .error ⟨500, "Error processing weather data structure"⟩

/-- The dict literal written into `TEMP_WEATHER_STORE` on a successful
weather request (`app.py` lines 132-137): city, temp and the two
descriptions — and nothing else. -/
def weatherPayload (city : String) (temp : Rat) (den dde : String) : PyDict :=
  [("city", Val.s city), ("temp", Val.q temp),
   ("description_en", Val.s den), ("description_de", Val.s dde)]

/-- The `/request` handler `get_weather`: lowercase the city, fetch one
payload per configured language, extract the fields, store the weather dict
under the lowercased city and return the response.  The pair is the store
after the request together with the HTTP outcome. -/
def get_weather (upstream : String → String → UpstreamResp) (lgs : List String)
    (store : Store) (city_name : String) : Store × Except HTTPError WeatherResp :=
  match fetchAll (upstream (pyLower city_name)) lgs with
  | .error e => (store, .error e)
  | .ok wd =>
    match extractFields wd with
    | .error e => (store, .error e)
    | .ok r =>
      (Store.put store (pyLower city_name)
        (weatherPayload (pyLower city_name) r.temp r.description_en r.description_de),
       .ok r)

/-- The error deliberately raised by `calc_total_polarity` when the text has
no sentences: `raise ZeroDivisionError("No sentences found to calculate
polarity.")` — the spec's `EmptyInputError`. -/
inductive ScoreErr
  | zeroDivisionError
  deriving DecidableEq

/-- A feedback text together with the per-sentence polarity values that the
external TextBlob library computes for it.  An empty list models a text in
which TextBlob finds no sentences (in particular empty and whitespace-only
strings). -/
structure FeedbackText where
  raw : String
  sentencePolarities : List Rat
  deriving DecidableEq

/-- The state of a `SentimentAnalysisWeather` instance: the blob's sentence
polarities and the accumulator field `self.means`. -/
structure SentimentAnalysisWeather where
  sentences : List Rat
  means : Rat
  deriving DecidableEq

/-- `SentimentAnalysisWeather.__init__`: record the blob's sentences and set
`self.means = 0`. -/
def SentimentAnalysisWeather.init (t : FeedbackText) : SentimentAnalysisWeather :=
  ⟨t.sentencePolarities, 0⟩

/-- `SentimentAnalysisWeather.sentiment`: return early when the blob has no
sentences, otherwise add every sentence's polarity onto `self.means`
(no reset: the accumulator keeps its previous value). -/
def SentimentAnalysisWeather.sentiment (s : SentimentAnalysisWeather) : SentimentAnalysisWeather :=
  if s.sentences = [] then s
  else { s with means := s.sentences.foldl (fun m p => m + p) s.means }

/-- `SentimentAnalysisWeather.calc_total_polarity`: raise the deliberate
`ZeroDivisionError` when the blob has no sentences, else return
`self.means` divided by the number of sentences. -/
def SentimentAnalysisWeather.calc_total_polarity (s : SentimentAnalysisWeather) : Except ScoreErr Rat :=
  if s.sentences.length = 0 then .error ScoreErr.zeroDivisionError
  else .ok (s.means / (s.sentences.length : Rat))

/-- The exception kinds the repository's persistence code raises and the
`/sentiment` handler catches (`except (ValueError, RuntimeError)`):
`RuntimeError` from `CloudDB.insert_sentiment_record` on a rejected insert,
`ValueError` from payload validation. -/
inductive PyErr
  | valueError
  | runtimeError
  deriving DecidableEq

/-- The client-visible failures of the `/sentiment` handler: the scorer's
uncaught `ZeroDivisionError` (surfaced as a 500-class failure) and the 404
`HTTPException` for a city absent from the store. -/
inductive FeedbackErr
  | zeroDivision
  | unknownCity (city : String)
  deriving DecidableEq

/-- The HTTP status each feedback failure maps to. -/
def FeedbackErr.status : FeedbackErr → Nat
  | .zeroDivision => 500
  | .unknownCity _ => 404

instance exceptDecEq {ε α : Type} [DecidableEq ε] [DecidableEq α] : DecidableEq (Except ε α) :=
  fun a b =>
    match a, b with
    | .error e1, .error e2 =>
      if h : e1 = e2 then isTrue (by rw [h]) else isFalse (fun hc => h (Except.error.inj hc))
    | .ok v1, .ok v2 =>
      if h : v1 = v2 then isTrue (by rw [h]) else isFalse (fun hc => h (Except.ok.inj hc))
    | .error _, .ok _ => isFalse (fun hc => Except.noConfusion hc)
    | .ok _, .error _ => isFalse (fun hc => Except.noConfusion hc)

/-- The observable outcome of one `/sentiment` request: the response (score
or error), the payload handed to each persistence target (`none` when that
write was never attempted), and whether each write succeeded. -/
structure FeedbackOutcome where
  result : Except FeedbackErr Rat
  cloudAttempt : Option PyDict
  sqliteAttempt : Option PyDict
  cloudPersisted : Bool
  sqlitePersisted : Bool
  deriving DecidableEq

/-- The `/sentiment` handler `get_sentiment`, in the source's order: score
the feedback first (constructor, one `sentiment()` call,
`calc_total_polarity()` — an uncaught scorer error ends the request), then
look up the lowercased city in the store (absent, or falsy-empty, dict
yields the 404), then assemble the combined payload and attempt both
writes, each `try`-guarded so that its failure is only logged. -/
def get_sentiment (store : Store) (cloudOutcome sqliteOutcome : Option PyErr)
    (text : FeedbackText) (city_name : String) (timestamp : String) : FeedbackOutcome :=
  match ((SentimentAnalysisWeather.init text).sentiment).calc_total_polarity with
  | .error _ => ⟨.error FeedbackErr.zeroDivision, none, none, false, false⟩
  | .ok score =>
    match Store.get store (pyLower city_name) with
    | none => ⟨.error (FeedbackErr.unknownCity (pyLower city_name)), none, none, false, false⟩
    | some wd =>
      if wd.isEmpty then
        ⟨.error (FeedbackErr.unknownCity (pyLower city_name)), none, none, false, false⟩
      else
        ⟨.ok score,
         some (wd ++ [("sentiment_input", Val.s text.raw), ("polarity", Val.q score)]),
         some (wd ++ [("sentiment_input", Val.s text.raw), ("polarity", Val.q score),
                      ("time", Val.s timestamp)]),
         cloudOutcome.isNone, sqliteOutcome.isNone⟩

/-- The eight PNG magic bytes `89 50 4E 47 0D 0A 1A 0A`. -/
def pngMagic : List Nat := [137, 80, 78, 71, 13, 10, 26, 10]

/-- One response of the icon CDN: status code and body bytes. -/
structure IconFetch where
  status : Nat
  content : List Nat
  deriving DecidableEq

/-- The binary response the icon proxy returns on success. -/
structure IconResponse where
  content : List Nat
  media_type : String
  deriving DecidableEq

/-- The `/icon/{icon_code}` handler `get_icon`.  `none` models
`requests.get` itself raising (network failure); a 4xx/5xx status makes
`raise_for_status` raise; both land in the generic handler that yields the
502.  Otherwise the body must start with the PNG magic bytes, or the
dedicated 502 is raised; only then is the content returned as `image/png`. -/
def get_icon (fetch : Option IconFetch) : Except HTTPError IconResponse :=
  match fetch with
  | none => .error ⟨502, "Failed to fetch weather icon"⟩
  | some r =>
    if 400 ≤ r.status then .error ⟨502, "Failed to fetch weather icon"⟩
    else if List.isPrefixOf pngMagic r.content = false then
      .error ⟨502, "Icon response was not a PNG"⟩
    else .ok ⟨r.content, "image/png"⟩

/-- `True` exactly on `Except.error`. -/
def isErrorB {ε α : Type} : Except ε α → Bool
  | .error _ => true
  | .ok _ => false

/-- Two strings differ at most in letter case: lowercasing them character by
character yields the same character list. -/
def caseInsensitiveEq (s t : String) : Prop :=
  s.data.map Char.toLower = t.data.map Char.toLower

/-- A test double for the upstream provider that always fails with 404. -/
def upFail : String → String → UpstreamResp :=
  fun _ _ => ⟨404, ⟨none, none, none, none⟩, "city not found"⟩

/-- A test double for the upstream provider that always succeeds with a
fixed payload. -/
def upOk : String → String → UpstreamResp :=
  fun _ _ => ⟨200, ⟨some "Berlin", some 20, some "clear sky", some "01d"⟩, ""⟩

/-! ## Helper lemmas about the scorer -/

/-- Folding addition over a list starting from `a` adds the list's sum. -/
theorem foldl_add_eq_add_sum (l : List Rat) : ∀ a : Rat, l.foldl (fun m p => m + p) a = a + l.sum := by
  induction l with
  | nil => intro a; simp
  | cons x xs ih =>
    intro a
    rw [List.foldl_cons, ih (a + x), List.sum_cons]
    ring

/-- One `sentiment()` call adds the sum of the sentence polarities onto the
accumulator, whether or not the sentence list is empty. -/
theorem sentiment_eq (s : SentimentAnalysisWeather) :
    s.sentiment = ⟨s.sentences, s.means + s.sentences.sum⟩ := by
  cases s with
  | mk sen me =>
    by_cases h : sen = []
    · subst h
      simp [SentimentAnalysisWeather.sentiment]
    · simp [SentimentAnalysisWeather.sentiment, h, foldl_add_eq_add_sum]

/-- `k` successive `sentiment()` calls on a fresh instance leave the
accumulator at `k` times the sum of the sentence polarities. -/
theorem sentiment_iterate (t : FeedbackText) (k : Nat) :
    SentimentAnalysisWeather.sentiment^[k] (SentimentAnalysisWeather.init t)
      = ⟨t.sentencePolarities, (k : Rat) * t.sentencePolarities.sum⟩ := by
  induction k with
  | zero => simp [SentimentAnalysisWeather.init]
  | succ n ih =>
    rw [Function.iterate_succ_apply', ih, sentiment_eq]
    congr 1
    push_cast
    ring

/-- The scorer protocol the handler uses (construct, one `sentiment()`
call, `calc_total_polarity()`) returns the mean of the sentence
polarities whenever there is at least one sentence. -/
theorem calc_of_ne_nil (t : FeedbackText) (h : t.sentencePolarities ≠ []) :
    ((SentimentAnalysisWeather.init t).sentiment).calc_total_polarity
      = Except.ok (t.sentencePolarities.sum / (t.sentencePolarities.length : Rat)) := by
  have hit := sentiment_iterate t 1
  rw [Function.iterate_one] at hit
  rw [hit]
  have hlen : t.sentencePolarities.length ≠ 0 := by
    simpa [List.length_eq_zero] using h
  simp [SentimentAnalysisWeather.calc_total_polarity, hlen]

/-! ## Claims about the Sentiment Scorer -/

/-- C2: for every input text with at least one sentence, the score produced
by the handler's protocol (construct `SentimentAnalysisWeather`, call
`sentiment()` once, then `calc_total_polarity()`) equals the arithmetic mean
of the per-sentence polarities: their sum divided by the number of
sentences. -/
theorem C2_mean_of_sentence_polarities (t : FeedbackText) (h : t.sentencePolarities ≠ []) :
    ((SentimentAnalysisWeather.init t).sentiment).calc_total_polarity
      = Except.ok (t.sentencePolarities.sum / (t.sentencePolarities.length : Rat)) :=
  calc_of_ne_nil t h

/-- C2 witness: a text whose two sentences score 1/2 and -1/2. -/
theorem C2_mean_of_sentence_polarities_witness :
    (([(1 : Rat)/2, -(1 : Rat)/2] : List Rat) ≠ []) ∧
    ((SentimentAnalysisWeather.init ⟨"Nice sun. Bad wind.", [(1 : Rat)/2, -(1 : Rat)/2]⟩).sentiment).calc_total_polarity
      = Except.ok (([(1 : Rat)/2, -(1 : Rat)/2] : List Rat).sum
          / ((([(1 : Rat)/2, -(1 : Rat)/2] : List Rat).length : Nat) : Rat)) :=
  ⟨by decide, C2_mean_of_sentence_polarities ⟨"Nice sun. Bad wind.", [(1 : Rat)/2, -(1 : Rat)/2]⟩ (by decide)⟩

/-- C3: for every input text in which the blob finds zero sentences
(in particular empty and whitespace-only strings), the scorer fails with
the deliberately raised zero-sentences error — the spec's
`EmptyInputError` — and never returns a score, in particular never a
silent 0.0. -/
theorem C3_empty_input_error (t : FeedbackText) (h : t.sentencePolarities = []) :
    ((SentimentAnalysisWeather.init t).sentiment).calc_total_polarity
        = Except.error ScoreErr.zeroDivisionError ∧
    ∀ q : Rat, ((SentimentAnalysisWeather.init t).sentiment).calc_total_polarity ≠ Except.ok q := by
  have hcalc : ((SentimentAnalysisWeather.init t).sentiment).calc_total_polarity
      = Except.error ScoreErr.zeroDivisionError := by
    simp [SentimentAnalysisWeather.init, SentimentAnalysisWeather.sentiment,
      SentimentAnalysisWeather.calc_total_polarity, h]
  refine ⟨hcalc, fun q hq => ?_⟩
  rw [hcalc] at hq
  exact Except.noConfusion hq

/-- C3 witness: a whitespace-only feedback text, which TextBlob splits into
zero sentences. -/
theorem C3_empty_input_error_witness :
    ((⟨"   ", []⟩ : FeedbackText).sentencePolarities = []) ∧
    (((SentimentAnalysisWeather.init ⟨"   ", []⟩).sentiment).calc_total_polarity
        = Except.error ScoreErr.zeroDivisionError ∧
      ∀ q : Rat, ((SentimentAnalysisWeather.init ⟨"   ", []⟩).sentiment).calc_total_polarity
        ≠ Except.ok q) :=
  ⟨rfl, C3_empty_input_error ⟨"   ", []⟩ rfl⟩

/-- C9: `sentiment()` is not idempotent.  On a text with at least one
sentence, calling `sentiment()` `k` times and then `calc_total_polarity()`
returns `k` times the per-sentence mean (so only the exact sequence with one
`sentiment()` call yields the mean itself), and calling
`calc_total_polarity()` with no prior `sentiment()` call returns 0.0. -/
theorem C9_sentiment_not_idempotent (t : FeedbackText) (k : Nat) (h : t.sentencePolarities ≠ []) :
    (SentimentAnalysisWeather.sentiment^[k] (SentimentAnalysisWeather.init t)).calc_total_polarity
        = Except.ok ((k : Rat) * (t.sentencePolarities.sum / (t.sentencePolarities.length : Rat))) ∧
    (SentimentAnalysisWeather.init t).calc_total_polarity = Except.ok 0 := by
  have hlen : t.sentencePolarities.length ≠ 0 := by
    simpa [List.length_eq_zero] using h
  constructor
  · rw [sentiment_iterate]
    simp [SentimentAnalysisWeather.calc_total_polarity, hlen]
    rw [mul_div_assoc]
  · simp [SentimentAnalysisWeather.init, SentimentAnalysisWeather.calc_total_polarity, hlen]

/-- C9 witness: two `sentiment()` calls on a one-sentence text with
polarity 1/2 double the reported score. -/
theorem C9_sentiment_not_idempotent_witness :
    (([(1 : Rat)/2] : List Rat) ≠ []) ∧
    ((SentimentAnalysisWeather.sentiment^[2] (SentimentAnalysisWeather.init ⟨"Good day.", [(1 : Rat)/2]⟩)).calc_total_polarity
        = Except.ok (((2 : Nat) : Rat) * (([(1 : Rat)/2] : List Rat).sum
            / ((([(1 : Rat)/2] : List Rat).length : Nat) : Rat))) ∧
      (SentimentAnalysisWeather.init ⟨"Good day.", [(1 : Rat)/2]⟩).calc_total_polarity
        = Except.ok 0) :=
  ⟨by decide, C9_sentiment_not_idempotent ⟨"Good day.", [(1 : Rat)/2]⟩ 2 (by decide)⟩

/-! ## Claims about the feedback handler -/

/-- Looking up the key just written returns exactly the new record. -/
theorem store_get_put (m : Store) (k : String) (v : PyDict) :
    Store.get (Store.put m k v) k = some v := by
  simp [Store.get, Store.put, List.find?]

/-- C1 counterexample: with an empty store (the city was never passed to the
weather handler), a feedback submission whose text has zero sentences fails
with the scorer's zero-sentences error, not with the 404 unknown-city
error — the handler scores before it looks the city up. -/
theorem C1_counterexample :
    (get_sentiment Store.empty none none ⟨"", []⟩ "Atlantis" "2020-01-01 00:00:00").result
        = Except.error FeedbackErr.zeroDivision ∧
    (get_sentiment Store.empty none none ⟨"", []⟩ "Atlantis" "2020-01-01 00:00:00").result
        ≠ Except.error (FeedbackErr.unknownCity "atlantis") := by
  constructor
  · rfl
  · intro h
    have h2 : FeedbackErr.zeroDivision = FeedbackErr.unknownCity "atlantis" :=
      Except.error.inj h
    exact FeedbackErr.noConfusion h2

/-- C1 amended: for a city absent from the store, a feedback submission
whose text has at least one sentence fails with the 404 unknown-city error
and no record is persisted to either store; sentiment scoring, however,
runs before the lookup, and a zero-sentence text makes the scoring error
pre-empt the 404. -/
theorem C1_unknown_city_404 (store : Store) (co so : Option PyErr) (t : FeedbackText)
    (city ts : String)
    (hp : t.sentencePolarities ≠ [])
    (hc : Store.get store (pyLower city) = none) :
    (get_sentiment store co so t city ts).result
        = Except.error (FeedbackErr.unknownCity (pyLower city)) ∧
    (get_sentiment store co so t city ts).cloudAttempt = none ∧
    (get_sentiment store co so t city ts).sqliteAttempt = none ∧
    FeedbackErr.status (FeedbackErr.unknownCity (pyLower city)) = 404 := by
  have hs := calc_of_ne_nil t hp
  refine ⟨?_, ?_, ?_, rfl⟩ <;> simp [get_sentiment, hs, hc]

/-- C1 witness: a one-sentence text submitted for a city the store has
never seen. -/
theorem C1_unknown_city_404_witness :
    (([(1 : Rat)/2] : List Rat) ≠ []) ∧
    (Store.get Store.empty (pyLower "Atlantis") = none) ∧
    ((get_sentiment Store.empty none none ⟨"Nice day.", [(1 : Rat)/2]⟩ "Atlantis" "t").result
        = Except.error (FeedbackErr.unknownCity (pyLower "Atlantis")) ∧
      (get_sentiment Store.empty none none ⟨"Nice day.", [(1 : Rat)/2]⟩ "Atlantis" "t").cloudAttempt = none ∧
      (get_sentiment Store.empty none none ⟨"Nice day.", [(1 : Rat)/2]⟩ "Atlantis" "t").sqliteAttempt = none ∧
      FeedbackErr.status (FeedbackErr.unknownCity (pyLower "Atlantis")) = 404) :=
  ⟨by decide, rfl, C1_unknown_city_404 Store.empty none none ⟨"Nice day.", [(1 : Rat)/2]⟩ "Atlantis" "t" (by decide) rfl⟩

/-- C10: the handler computes the sentiment score before the store lookup,
so when the text has zero sentences and the city is absent from the store,
the raised error is the zero-sentences scoring error (a 500-class failure),
not the 404 unknown-city error. -/
theorem C10_empty_input_precedes_404 (store : Store) (co so : Option PyErr) (t : FeedbackText)
    (city ts : String)
    (hp : t.sentencePolarities = [])
    (_hc : Store.get store (pyLower city) = none) :
    (get_sentiment store co so t city ts).result = Except.error FeedbackErr.zeroDivision ∧
    (get_sentiment store co so t city ts).result
        ≠ Except.error (FeedbackErr.unknownCity (pyLower city)) ∧
    FeedbackErr.status FeedbackErr.zeroDivision = 500 := by
  have hres : (get_sentiment store co so t city ts).result = Except.error FeedbackErr.zeroDivision := by
    simp [get_sentiment, SentimentAnalysisWeather.init, SentimentAnalysisWeather.sentiment,
      SentimentAnalysisWeather.calc_total_polarity, hp]
  refine ⟨hres, fun h => ?_, rfl⟩
  rw [hres] at h
  exact FeedbackErr.noConfusion (Except.error.inj h)

/-- C10 witness: an empty feedback text for a city never requested. -/
theorem C10_empty_input_precedes_404_witness :
    ((⟨"", []⟩ : FeedbackText).sentencePolarities = []) ∧
    (Store.get Store.empty (pyLower "Nowhere") = none) ∧
    ((get_sentiment Store.empty none none ⟨"", []⟩ "Nowhere" "t").result
        = Except.error FeedbackErr.zeroDivision ∧
      (get_sentiment Store.empty none none ⟨"", []⟩ "Nowhere" "t").result
        ≠ Except.error (FeedbackErr.unknownCity (pyLower "Nowhere")) ∧
      FeedbackErr.status FeedbackErr.zeroDivision = 500) :=
  ⟨rfl, rfl, C10_empty_input_precedes_404 Store.empty none none ⟨"", []⟩ "Nowhere" "t" rfl rfl⟩

/-- C4: for a feedback submission whose city is in the store (a non-empty
stored dict) and whose text scores successfully, both persistence writes
are attempted with the combined payload no matter how either turns out,
each write succeeds exactly when its own outcome is a success — a failure
of the Supabase insert does not prevent the SQLite append and vice versa —
and the handler's response is the computed polarity regardless of either
persistence outcome: persistence never raises past the service boundary. -/
theorem C4_dual_write_independent (store : Store) (co so : Option PyErr) (t : FeedbackText)
    (city ts : String) (wd : PyDict)
    (hw : Store.get store (pyLower city) = some wd) (hne : wd ≠ [])
    (hp : t.sentencePolarities ≠ []) :
    (get_sentiment store co so t city ts).result
        = Except.ok (t.sentencePolarities.sum / (t.sentencePolarities.length : Rat)) ∧
    (get_sentiment store co so t city ts).cloudAttempt
        = some (wd ++ [("sentiment_input", Val.s t.raw),
            ("polarity", Val.q (t.sentencePolarities.sum / (t.sentencePolarities.length : Rat)))]) ∧
    (get_sentiment store co so t city ts).sqliteAttempt
        = some (wd ++ [("sentiment_input", Val.s t.raw),
            ("polarity", Val.q (t.sentencePolarities.sum / (t.sentencePolarities.length : Rat))),
            ("time", Val.s ts)]) ∧
    (get_sentiment store co so t city ts).cloudPersisted = co.isNone ∧
    (get_sentiment store co so t city ts).sqlitePersisted = so.isNone := by
  have hs := calc_of_ne_nil t hp
  have hemp : wd.isEmpty = false := by
    cases wd with
    | nil => exact absurd rfl hne
    | cons a l => rfl
  refine ⟨?_, ?_, ?_, ?_, ?_⟩ <;> simp [get_sentiment, hs, hw, hemp]

/-- C4 witness: the Supabase insert fails with `RuntimeError` while the
SQLite append succeeds; the response is still the polarity 1/2. -/
theorem C4_dual_write_independent_witness :
    (Store.get (Store.put Store.empty "berlin" (weatherPayload "berlin" 20 "clear sky" "klarer himmel"))
        (pyLower "Berlin") = some (weatherPayload "berlin" 20 "clear sky" "klarer himmel")) ∧
    (weatherPayload "berlin" 20 "clear sky" "klarer himmel" ≠ []) ∧
    (([(1 : Rat)/2] : List Rat) ≠ []) ∧
    ((get_sentiment (Store.put Store.empty "berlin" (weatherPayload "berlin" 20 "clear sky" "klarer himmel"))
        (some PyErr.runtimeError) none ⟨"Nice day.", [(1 : Rat)/2]⟩ "Berlin" "t").result
        = Except.ok (([(1 : Rat)/2] : List Rat).sum / ((([(1 : Rat)/2] : List Rat).length : Nat) : Rat)) ∧
      (get_sentiment (Store.put Store.empty "berlin" (weatherPayload "berlin" 20 "clear sky" "klarer himmel"))
        (some PyErr.runtimeError) none ⟨"Nice day.", [(1 : Rat)/2]⟩ "Berlin" "t").cloudAttempt
        = some (weatherPayload "berlin" 20 "clear sky" "klarer himmel"
            ++ [("sentiment_input", Val.s (⟨"Nice day.", [(1 : Rat)/2]⟩ : FeedbackText).raw),
                ("polarity", Val.q (([(1 : Rat)/2] : List Rat).sum
                   / ((([(1 : Rat)/2] : List Rat).length : Nat) : Rat)))]) ∧
      (get_sentiment (Store.put Store.empty "berlin" (weatherPayload "berlin" 20 "clear sky" "klarer himmel"))
        (some PyErr.runtimeError) none ⟨"Nice day.", [(1 : Rat)/2]⟩ "Berlin" "t").sqliteAttempt
        = some (weatherPayload "berlin" 20 "clear sky" "klarer himmel"
            ++ [("sentiment_input", Val.s (⟨"Nice day.", [(1 : Rat)/2]⟩ : FeedbackText).raw),
                ("polarity", Val.q (([(1 : Rat)/2] : List Rat).sum
                   / ((([(1 : Rat)/2] : List Rat).length : Nat) : Rat))),
                ("time", Val.s "t")]) ∧
      (get_sentiment (Store.put Store.empty "berlin" (weatherPayload "berlin" 20 "clear sky" "klarer himmel"))
        (some PyErr.runtimeError) none ⟨"Nice day.", [(1 : Rat)/2]⟩ "Berlin" "t").cloudPersisted
        = (some PyErr.runtimeError).isNone ∧
      (get_sentiment (Store.put Store.empty "berlin" (weatherPayload "berlin" 20 "clear sky" "klarer himmel"))
        (some PyErr.runtimeError) none ⟨"Nice day.", [(1 : Rat)/2]⟩ "Berlin" "t").sqlitePersisted
        = (none : Option PyErr).isNone) :=
  ⟨rfl, by decide, by decide,
   C4_dual_write_independent
     (Store.put Store.empty "berlin" (weatherPayload "berlin" 20 "clear sky" "klarer himmel"))
     (some PyErr.runtimeError) none ⟨"Nice day.", [(1 : Rat)/2]⟩ "Berlin" "t"
     (weatherPayload "berlin" 20 "clear sky" "klarer himmel") rfl (by decide) (by decide)⟩

/-! ## Case normalization -/

/-- Strings that differ only in letter case lowercase to the same string. -/
theorem pyLower_eq_of_caseInsensitiveEq {s t : String} (h : caseInsensitiveEq s t) :
    pyLower s = pyLower t := by
  unfold pyLower
  exact congrArg String.mk h

/-- C5: for every pair of city strings that differ only in letter case,
the weather handler and the feedback handler address the same store entry:
both lowercase the city before the upstream query and before using it as
the store key, so their entire behaviour — including which cached record a
feedback submission retrieves — is identical for the two spellings. -/
theorem C5_case_insensitive_city (s t : String) (h : caseInsensitiveEq s t)
    (up : String → String → UpstreamResp) (lgs : List String) (store : Store)
    (co so : Option PyErr) (txt : FeedbackText) (ts : String) :
    pyLower s = pyLower t ∧
    get_weather up lgs store s = get_weather up lgs store t ∧
    get_sentiment store co so txt s ts = get_sentiment store co so txt t ts := by
  have hl := pyLower_eq_of_caseInsensitiveEq h
  refine ⟨hl, ?_, ?_⟩
  · unfold get_weather
    rw [hl]
  · unfold get_sentiment
    rw [hl]

/-- C5 witness: "Berlin" and "bERLIn" behave identically in both
handlers. -/
theorem C5_case_insensitive_city_witness :
    caseInsensitiveEq "Berlin" "bERLIn" ∧
    (pyLower "Berlin" = pyLower "bERLIn" ∧
      get_weather upOk ["en", "de"] Store.empty "Berlin"
        = get_weather upOk ["en", "de"] Store.empty "bERLIn" ∧
      get_sentiment Store.empty none none ⟨"Nice day.", [(1 : Rat)/2]⟩ "Berlin" "t"
        = get_sentiment Store.empty none none ⟨"Nice day.", [(1 : Rat)/2]⟩ "bERLIn" "t") :=
  ⟨by unfold caseInsensitiveEq; decide,
   C5_case_insensitive_city "Berlin" "bERLIn" (by unfold caseInsensitiveEq; decide) upOk ["en", "de"] Store.empty
     none none ⟨"Nice day.", [(1 : Rat)/2]⟩ "t"⟩

/-! ## Claims about the weather handler -/

/-- If any configured language gets a non-200 upstream response, the fetch
loop fails. -/
theorem fetchAll_isError_of_bad_status (up : String → UpstreamResp) (lgs : List String)
    (h : ∃ lg ∈ lgs, (up lg).status ≠ 200) :
    isErrorB (fetchAll up lgs) = true := by
  induction lgs with
  | nil => simp at h
  | cons l ls ih =>
    by_cases hl : (up l).status ≠ 200
    · simp [fetchAll, hl, isErrorB]
    · obtain ⟨lg, hmem, hbad⟩ := h
      have hls : lg ∈ ls := by
        rcases List.mem_cons.mp hmem with h1 | h1
        · exact absurd (h1 ▸ hbad) hl
        · exact h1
      have hrec := ih ⟨lg, hls, hbad⟩
      cases heq : fetchAll up ls with
      | error e => simp [fetchAll, hl, heq, isErrorB]
      | ok tail => rw [heq] at hrec; simp [isErrorB] at hrec

/-- C6: whenever the fetch phase fails — the upstream provider answers a
non-200 status for some configured language, or all fetches succeed but an
expected field is missing from the combined payload — the handler returns
an error response and the aggregation store is left exactly as it was: no
entry is written or modified. -/
theorem C6_fetch_failure_leaves_store (up : String → String → UpstreamResp) (lgs : List String)
    (store : Store) (city : String)
    (h : (∃ lg ∈ lgs, (up (pyLower city) lg).status ≠ 200) ∨
      (∃ wd, fetchAll (up (pyLower city)) lgs = Except.ok wd ∧ isErrorB (extractFields wd) = true)) :
    isErrorB (get_weather up lgs store city).2 = true ∧
    (get_weather up lgs store city).1 = store := by
  rcases h with h | ⟨wd, hok, hext⟩
  · have hf := fetchAll_isError_of_bad_status (up (pyLower city)) lgs h
    cases heq : fetchAll (up (pyLower city)) lgs with
    | error e => constructor <;> simp [get_weather, heq, isErrorB]
    | ok wd => rw [heq] at hf; simp [isErrorB] at hf
  · cases hx : extractFields wd with
    | error e => constructor <;> simp [get_weather, hok, hx, isErrorB]
    | ok r => rw [hx] at hext; simp [isErrorB] at hext

/-- C6 witness: a provider that answers 404 for every language leaves an
empty store empty and yields an error response. -/
theorem C6_fetch_failure_leaves_store_witness :
    (∃ lg ∈ (["en", "de"] : List String), (upFail (pyLower "Berlin") lg).status ≠ 200) ∧
    (isErrorB (get_weather upFail ["en", "de"] Store.empty "Berlin").2 = true ∧
      (get_weather upFail ["en", "de"] Store.empty "Berlin").1 = Store.empty) :=
  ⟨by decide,
   C6_fetch_failure_leaves_store upFail ["en", "de"] Store.empty "Berlin" (Or.inl (by decide))⟩

/-- C7 counterexample: a successful request whose response carries the icon
code "01d", while the record held in the store under the lowercased city
contains only city, temperature and the two descriptions — it has no
"icon" key at all, so the stored record does not contain the icon code. -/
theorem C7_counterexample :
    (get_weather upOk ["en", "de"] Store.empty "Berlin").2
        = Except.ok ⟨"Berlin", 20, "clear sky", "clear sky", "01d"⟩ ∧
    Store.get (get_weather upOk ["en", "de"] Store.empty "Berlin").1 "berlin"
        = some (weatherPayload "berlin" 20 "clear sky" "clear sky") ∧
    List.find? (fun kv => kv.1 == "icon")
        (Option.getD (Store.get (get_weather upOk ["en", "de"] Store.empty "Berlin").1 "berlin") [])
        = none := by
  refine ⟨rfl, rfl, rfl⟩

/-- C7 amended: on every successful weather request the store holds, under
the lowercased city key, exactly the dict with the city, the temperature,
the English description and the German description — the icon code is
returned in the response but not stored — and because this holds for an
arbitrary prior store, a repeat request for the same city overwrites (does
not merge with) the previous entry. -/
theorem C7_store_record_fields (up : String → String → UpstreamResp) (lgs : List String)
    (store : Store) (city : String) (r : WeatherResp)
    (h : (get_weather up lgs store city).2 = Except.ok r) :
    Store.get (get_weather up lgs store city).1 (pyLower city)
      = some (weatherPayload (pyLower city) r.temp r.description_en r.description_de) := by
  cases hf : fetchAll (up (pyLower city)) lgs with
  | error e => simp [get_weather, hf] at h
  | ok wd =>
    cases hx : extractFields wd with
    | error e => simp [get_weather, hf, hx] at h
    | ok r2 =>
      have hr : r2 = r := by simpa [get_weather, hf, hx] using h
      subst hr
      simp [get_weather, hf, hx, store_get_put]

/-- C7 witness: a successful request for "Berlin" stores exactly the
four-field dict under "berlin". -/
theorem C7_store_record_fields_witness :
    ((get_weather upOk ["en", "de"] Store.empty "Berlin").2
        = Except.ok ⟨"Berlin", 20, "clear sky", "clear sky", "01d"⟩) ∧
    (Store.get (get_weather upOk ["en", "de"] Store.empty "Berlin").1 (pyLower "Berlin")
        = some (weatherPayload (pyLower "Berlin")
            (⟨"Berlin", 20, "clear sky", "clear sky", "01d"⟩ : WeatherResp).temp
            (⟨"Berlin", 20, "clear sky", "clear sky", "01d"⟩ : WeatherResp).description_en
            (⟨"Berlin", 20, "clear sky", "clear sky", "01d"⟩ : WeatherResp).description_de)) :=
  ⟨rfl,
   C7_store_record_fields upOk ["en", "de"] Store.empty "Berlin"
     ⟨"Berlin", 20, "clear sky", "clear sky", "01d"⟩ rfl⟩

/-! ## The icon proxy -/

/-- C8: the icon proxy returns content as `image/png` only when it begins
with the eight PNG magic bytes; a fetched byte stream that does not start
with them yields a 502 error, and so does every failed fetch — the request
raising, or a 4xx/5xx status via `raise_for_status`, even when that error
response's body itself begins with the PNG magic bytes — so non-image or
error content is never forwarded as `image/png`. -/
theorem C8_png_magic_guard (fetch : Option IconFetch) :
    (∀ resp, get_icon fetch = Except.ok resp →
        List.isPrefixOf pngMagic resp.content = true ∧ resp.media_type = "image/png") ∧
    (∀ r, fetch = some r → List.isPrefixOf pngMagic r.content = false →
        ∃ e, get_icon fetch = Except.error e ∧ e.status = 502) ∧
    (∀ r, fetch = some r → 400 ≤ r.status →
        ∃ e, get_icon fetch = Except.error e ∧ e.status = 502) ∧
    (fetch = none → get_icon fetch = Except.error ⟨502, "Failed to fetch weather icon"⟩) := by
  refine ⟨?_, ?_, ?_, ?_⟩
  · intro resp hok
    cases fetch with
    | none => exact Except.noConfusion hok
    | some r =>
      by_cases h4 : 400 ≤ r.status
      · simp [get_icon, h4] at hok
      · by_cases hm : List.isPrefixOf pngMagic r.content = false
        · simp [get_icon, h4, hm] at hok
        · have hresp : resp = ⟨r.content, "image/png"⟩ := by
            have := hok
            simp [get_icon, h4, hm] at this
            exact this.symm
          subst hresp
          exact ⟨by simpa using hm, rfl⟩
  · intro r hr hm
    subst hr
    by_cases h4 : 400 ≤ r.status
    · exact ⟨⟨502, "Failed to fetch weather icon"⟩, by simp [get_icon, h4], rfl⟩
    · exact ⟨⟨502, "Icon response was not a PNG"⟩, by simp [get_icon, h4, hm], rfl⟩
  · intro r hr h4
    subst hr
    exact ⟨⟨502, "Failed to fetch weather icon"⟩, by simp [get_icon, h4], rfl⟩
  · intro hn
    subst hn
    rfl

/-- C8 witness: a 500 response whose body does begin with the PNG magic
bytes is still rejected with a 502 (the `raise_for_status` path), and a
200 response whose body does not start with the magic bytes is rejected
with a 502 as well. -/
theorem C8_png_magic_guard_witness :
    ((some (⟨500, pngMagic⟩ : IconFetch)) = some (⟨500, pngMagic⟩ : IconFetch)) ∧
    (400 ≤ (500 : Nat)) ∧
    (∃ e, get_icon (some ⟨500, pngMagic⟩) = Except.error e ∧ e.status = 502) ∧
    (List.isPrefixOf pngMagic [0, 1, 2] = false) ∧
    (∃ e, get_icon (some ⟨200, [0, 1, 2]⟩) = Except.error e ∧ e.status = 502) :=
  ⟨rfl, by decide,
   (C8_png_magic_guard (some ⟨500, pngMagic⟩)).2.2.1 ⟨500, pngMagic⟩ rfl (by decide),
   by decide,
   (C8_png_magic_guard (some ⟨200, [0, 1, 2]⟩)).2.1 ⟨200, [0, 1, 2]⟩ rfl (by decide)⟩
